import Mathlib

/-!
Shallow embedding of the evrostan street-view crawler
(`src/crawler/crawler/main.py`) and proofs about its grid sampler, panorama
resolver and deduplicator, image request builder, persistence strategies and
catalogue orchestration.

Conventions of the embedding:
* Coordinates (geopy `Point` values) are an abstract type `α`; the geodesic
  destination-point collaborator is an explicit function parameter.
* Network collaborators are explicit function parameters: `resp` for the
  metadata lookup, `fetch` for the imagery GET (`none` = non-ok response).
* Python exceptions are `Option`/error components: a function that can raise
  returns `none` (or carries an error message) on the raising path.
* Filesystem writes are recorded as explicit effect values rather than
  performed.
-/

namespace Crawler

variable {α : Type}

/-- A filesystem path, as the list of its segments. -/
abbrev FsPath := List String

/-- The Python builtin `range(0, stop, step)` for a positive `step`: the multiples of
`step` below `stop`, in ascending order. There are
`⌈stop / step⌉ = (stop + step - 1) / step` of them. -/
def pyRange (stop step : Nat) : List Nat :=
  (List.range ((stop + step - 1) / step)).map (fun i => i * step)

/-- The decoded body of one street-view metadata lookup response
(`PanoIdOf._resp`): a status string and, when the status is `"OK"`, a
panorama id and the capture location. -/
structure MetaResp (α : Type) where
  status : String
  panoId : String
  loc : α
deriving DecidableEq

/-- Embedding of `PanoIdOf.as_str` (source lines 31-37): `ZERO_RESULTS` yields nothing,
`OK` yields the pano id, any other status yields nothing. -/
def PanoIdOf.as_str (d : MetaResp α) : Option String :=
  if d.status = "ZERO_RESULTS" then none
  else if d.status = "OK" then some d.panoId
  else none

/-- Embedding of `PanoIdOf.pano_location` (source lines 39-45): the same classification,
yielding the canonical capture location from the response body. -/
def PanoIdOf.pano_location (d : MetaResp α) : Option α :=
  if d.status = "ZERO_RESULTS" then none
  else if d.status = "OK" then some d.loc
  else none

/-- Embedding of `PanoIdOf.location` (source lines 54-55): returns the constructor-supplied
query coordinates, never reading the lookup response. Its caller
(`Panos.as_list`) asserts the result is not `None`, so the result is embedded
as an `Option` that is always `some`. -/
def PanoIdOf.location (coords : α) : Option α := some coords

/-- Embedding of `PointsInSquare.iter` (source lines 64-71). `dest p b m` is the geodesic
destination-point collaborator: the point `m` metres from `p` at compass
bearing `b`. The source starts from `upper_left_corner()`; here that corner
is the `start` parameter, since the loop only displaces relative to it and
the loop displacements (Python `range` values) are whole metres. For outer
index `i` and inner index `j` the loop yields the destination `j` metres at
bearing 180 (south) from the destination `i` metres at bearing 90 (east)
from `start`; both loops step by the fixed stride 30 up to `side`
inclusive. -/
def PointsInSquare.iter (dest : α → Nat → Nat → α) (start : α) (side : Nat) : List α :=
  (pyRange (side + 1) 30).flatMap (fun i =>
    (pyRange (side + 1) 30).map (fun j => dest (dest start 90 i) 180 j))

/-- The emission rule exactly as claim C4 words it, for comparison with
`PointsInSquare.iter`: for row index `i` and column index `j`, displace the
corner east by `j` metres and then south by `i` metres. -/
def PointsInSquare.iterSpec (dest : α → Nat → Nat → α) (start : α) (side : Nat) : List α :=
  (pyRange (side + 1) 30).flatMap (fun i =>
    (pyRange (side + 1) 30).map (fun j => dest (dest start 90 j) 180 i))

/-- A concrete planar model of the geodesic collaborator, used to evaluate
the sampler on explicit inputs: bearing 90 moves east (+x), bearing 180
moves south (-y). -/
def destPlanar (p : Int × Int) (bearing meters : Nat) : Int × Int :=
  if bearing = 90 then (p.1 + meters, p.2)
  else if bearing = 180 then (p.1, p.2 - meters)
  else p

/-- One directional street-view image request (`ImgRequest`). -/
structure ImgRequest where
  url : String
  fov : Nat
  heading : Nat
deriving DecidableEq

/-- The URL built for one image request in `Pano.image_requests`. -/
def imgUrl (width height : Nat) (panoId : String) (heading fov : Nat) (apiKey : String) : String :=
  "https://maps.googleapis.com/maps/api/streetview?size=" ++ toString width ++ "x" ++
    toString height ++ "&pano=" ++ panoId ++ "&heading=" ++ toString heading ++
    "&fov=" ++ toString fov ++ "&key=" ++ apiKey ++ "&return_error_code=true"

/-- Embedding of `Pano.image_requests` (source lines 97-107). The first guard mirrors the
assert of the source, `assert 360 % 90 == 0`, literally — the constant 90, not `fov` —
with `none` as the AssertionError branch; the second guard models the
ValueError that the Python builtin `range` raises on a zero step. The headings are
`range(0, 360, fov)`. -/
def Pano.image_requests (panoId apiKey : String) (fov width height : Nat) :
    Option (List ImgRequest) :=
  if 360 % 90 = 0 then
    if fov = 0 then none
    else
      some ((pyRange 360 fov).map (fun heading =>
        { url := imgUrl width height panoId heading fov apiKey
          fov := fov
          heading := heading }))
  else none

/-- Assignment `d[k] = v` on a Python dict represented as an insertion-ordered
association list: an existing key keeps its position and gets the new value,
a new key is appended at the end. -/
def insertKV (l : List (String × α)) (k : String) (v : α) : List (String × α) :=
  match l with
  | [] => [(k, v)]
  | (k', v') :: rest => if k' = k then (k, v) :: rest else (k', v') :: insertKV rest k v

instance : DecidableRel (fun a b : String × α => a.1 ≤ b.1) :=
  fun a b => inferInstanceAs (Decidable (a.1 ≤ b.1))

instance : IsTotal (String × α) (fun a b => a.1 ≤ b.1) :=
  ⟨fun a b => le_total a.1 b.1⟩

instance : IsTrans (String × α) (fun a b => a.1 ≤ b.1) :=
  ⟨fun _ _ _ h h' => le_trans h h'⟩

/-- The Python call `sorted(ids.items(), key=operator.itemgetter(0))`: a stable sort
of the dict entries, ascending by key (lexicographic `String` order). -/
def sortByKey (l : List (String × α)) : List (String × α) :=
  List.insertionSort (fun a b => a.1 ≤ b.1) l

/-- Embedding of `Panos.as_list` (source lines 116-129), with the pending dict as an
explicit accumulator. `resp` models the metadata lookup behind the
`PanoIdOf` built for each point by the `pano_id` factory. The `none` branch
is the failure of `assert location is not None`. The resulting panos are
(id, location) pairs. -/
def Panos.as_list (resp : α → MetaResp α) :
    List α → List (String × α) → Option (List (String × α))
  | [], ids => some (sortByKey ids)
  | p :: rest, ids =>
    match PanoIdOf.as_str (resp p) with
    | some s =>
      match PanoIdOf.location p with
      | some loc => Panos.as_list resp rest (insertKV ids s loc)
      | none => none
    | none => Panos.as_list resp rest ids

/-- Embedding of `Panos.as_list` started from the empty dict, as the method is called. -/
def Panos.asList (resp : α → MetaResp α) (pts : List α) : Option (List (String × α)) :=
  Panos.as_list resp pts []

/-- The pixel dimensions of one decoded image (PIL `Image.size`). -/
structure ImgData where
  w : Nat
  h : Nat
deriving DecidableEq

/-- The file name `f"{rq.fov}-{rq.heading}.jpg"` used by
`PanoFolderSimple.save_one`. -/
def simpleName (rq : ImgRequest) : String :=
  toString rq.fov ++ "-" ++ toString rq.heading ++ ".jpg"

/-- Embedding of `PanoFolderSimple.save` (source lines 148-160): one file per image under
the panorama directory; the result pairs the files written with the
directories the per-image `mkdir` calls touch. With no images nothing is
written and no directory is created. -/
def PanoFolderSimple.save (dir : FsPath) (panoId : String)
    (pics : List (ImgData × ImgRequest)) : List FsPath × List FsPath :=
  (pics.map (fun pr => dir ++ [panoId, simpleName pr.2]),
   pics.map (fun _ => dir ++ [panoId]))

instance : DecidableRel (fun a b : ImgData × ImgRequest => a.2.fov ≤ b.2.fov) :=
  fun a b => inferInstanceAs (Decidable (a.2.fov ≤ b.2.fov))

/-- Embedding of `PanoFolderGlued._sorted` (source lines 182-188): the source sorts by the
`fov` field of the request (the key function in the source is named
`heading` but returns `rq.fov`). The Python sort is stable; insertion sort matches that. -/
def gluedSorted (pics : List (ImgData × ImgRequest)) : List (ImgData × ImgRequest) :=
  List.insertionSort (fun a b => a.2.fov ≤ b.2.fov) pics

/-- Embedding of `PanoFolderGlued._seams_handled` (source lines 190-193): with seam
duplication on, `[pics[-1], *pics]`; `none` is the IndexError `pics[-1]`
raises on an empty list. -/
def seamsHandled (dup : Bool) (pics : List (ImgData × ImgRequest)) :
    Option (List (ImgData × ImgRequest)) :=
  if dup then
    match pics.getLast? with
    | some lastPic => some (lastPic :: pics)
    | none => none
  else some pics

/-- The composite file name written by `PanoFolderGlued._save`: the included
fov-heading pairs of the included requests joined by `--`, plus `.jpg`. -/
def gluedName (pics : List (ImgData × ImgRequest)) : String :=
  String.intercalate "--"
    (pics.map (fun pr => toString pr.2.fov ++ "-" ++ toString pr.2.heading)) ++ ".jpg"

/-- The observable result of `PanoFolderGlued.save`: the dimensions of the
composite image, the files written and the directories created. -/
structure GluedOut where
  composite : ImgData
  paths : List FsPath
  dirs : List FsPath
deriving DecidableEq

/-- Embedding of `PanoFolderGlued.save` (source lines 169-201): sort, handle the seam,
horizontally concatenate (total width = sum of widths, height = max height,
the max taken as a fold since all heights are naturals) and write exactly
one file named after every included request. `none` models the exception on
an empty input: with seam duplication `pics[-1]` raises IndexError, and
without it the `zip(*...)` unpacking raises ValueError. -/
def PanoFolderGlued.save (dir : FsPath) (panoId : String) (dup : Bool)
    (pics : List (ImgData × ImgRequest)) : Option GluedOut :=
  match seamsHandled dup (gluedSorted pics) with
  | none => none
  | some picsFinal =>
    match picsFinal with
    | [] => none
    | _ :: _ =>
      some { composite := { w := (picsFinal.map (fun pr => pr.1.w)).sum
                            h := (picsFinal.map (fun pr => pr.1.h)).foldr Nat.max 0 }
             paths := [dir ++ [panoId, gluedName picsFinal]]
             dirs := [dir ++ [panoId]] }

/-- The two persistence strategies the program selects between
(`PanoFolderSimple` and `PanoFolderGlued` with its seam flag). -/
inductive Strat
  | simple
  | glued (dup : Bool)
deriving DecidableEq

/-- Dispatch `pano_folder.save` for the chosen strategy, keeping the files
written and directories created; `none` propagates the Glued exception. -/
def stratSave (strat : Strat) (dir : FsPath) (panoId : String)
    (pics : List (ImgData × ImgRequest)) : Option (List FsPath × List FsPath) :=
  match strat with
  | .simple => some (PanoFolderSimple.save dir panoId pics)
  | .glued dup => (PanoFolderGlued.save dir panoId dup pics).map (fun o => (o.paths, o.dirs))

/-- The acquisition loop inside `Catalogue.download` (source lines 234-241):
each request is issued independently (`fetch` models the imagery GET, `none`
a non-ok response); failures are dropped, order is preserved. -/
def acquire (fetch : ImgRequest → Option ImgData) (rqs : List ImgRequest) :
    List (ImgData × ImgRequest) :=
  rqs.filterMap (fun rq => (fetch rq).map (fun d => (d, rq)))

/-- Embedding of `Catalogue.download` (source lines 232-243): build the requests, acquire,
save through the strategy, and report whether at least one image was
acquired, together with the files and directories the save produced. `none`
models an exception escaping `download` (the `save` of the strategy raising). -/
def Catalogue.download (dir : FsPath) (strat : Strat) (fetch : ImgRequest → Option ImgData)
    (apiKey : String) (fov : Nat) (panoId : String) :
    Option (Bool × List FsPath × List FsPath) :=
  match Pano.image_requests panoId apiKey fov 600 400 with
  | none => none
  | some rqs =>
    let images := acquire fetch rqs
    (stratSave strat dir panoId images).map (fun fd => (!images.isEmpty, fd.1, fd.2))

/-- The filesystem footprint of one `Catalogue.add` run: directories created,
files written, and the data rows of `index.csv` in write order. -/
structure Effects (α : Type) where
  dirsCreated : List FsPath
  filesWritten : List FsPath
  indexRows : List (String × α)
deriving DecidableEq

/-- The per-panorama loop of `Catalogue.add` (source lines 221-230):
download each pano; an escaping exception aborts the run with the effects
accumulated so far; a pano with at least one image gets an index row, one
with none gets no row and the loop continues. -/
def Catalogue.addLoop (dir : FsPath) (strat : Strat) (fetch : ImgRequest → Option ImgData)
    (apiKey : String) (fov : Nat) :
    List (String × α) → Effects α → Option String × Effects α
  | [], eff => (none, eff)
  | (pid, loc) :: rest, eff =>
    match Catalogue.download dir strat fetch apiKey fov pid with
    | none => (some "exception escaped PanoFolder.save", eff)
    | some (ok, files, dirsC) =>
      Catalogue.addLoop dir strat fetch apiKey fov rest
        { dirsCreated := eff.dirsCreated ++ dirsC
          filesWritten := eff.filesWritten ++ files
          indexRows := if ok then eff.indexRows ++ [(pid, loc)] else eff.indexRows }

/-- Embedding of `Catalogue.add` (source lines 212-230): raise ValueError if `index.csv`
already exists — before creating or touching anything — otherwise create the
output directory, open the index file (header row), resolve the panos and
run the per-panorama loop. The first component is the message of the escaping
exception, if any. -/
def Catalogue.add (dir : FsPath) (strat : Strat) (fetch : ImgRequest → Option ImgData)
    (apiKey : String) (fov : Nat) (indexExists : Bool) (resp : α → MetaResp α)
    (pts : List α) : Option String × Effects α :=
  if indexExists then
    (some ("index.csv already exists in " ++ String.intercalate "/" dir),
     { dirsCreated := [], filesWritten := [], indexRows := [] })
  else
    match Panos.asList resp pts with
    | none => (some "AssertionError",
               { dirsCreated := [dir], filesWritten := [dir ++ ["index.csv"]], indexRows := [] })
    | some panos =>
      Catalogue.addLoop dir strat fetch apiKey fov panos
        { dirsCreated := [dir], filesWritten := [dir ++ ["index.csv"]], indexRows := [] }

/-! ## Helper lemmas -/

lemma pyRange_stride30 (k : Nat) :
    pyRange (k * 30 + 1) 30 = (List.range (k + 1)).map (fun i => i * 30) := by
  have h : (k * 30 + 1 + 30 - 1) / 30 = k + 1 := by omega
  rw [pyRange, h]

lemma pyRange_dvd (fov : Nat) (hpos : 0 < fov) (hdvd : fov ∣ 360) :
    pyRange 360 fov = (List.range (360 / fov)).map (fun i => i * fov) := by
  obtain ⟨q, hq⟩ := hdvd
  have h1 : (360 + fov - 1) / fov = 360 / fov := by
    have he : 360 + fov - 1 = fov * q + (fov - 1) := by omega
    rw [he, Nat.mul_add_div hpos, Nat.div_eq_of_lt (by omega), hq,
      Nat.mul_div_cancel_left q hpos]
    omega
  rw [pyRange, h1]

lemma iter_length (dest : α → Nat → Nat → α) (start : α) (k : Nat) :
    (PointsInSquare.iter dest start (k * 30)).length = (k + 1) * (k + 1) := by
  simp [PointsInSquare.iter, pyRange_stride30, List.flatMap_def, List.map_map,
    Function.comp_def, List.map_const', List.sum_const_nat]

lemma sorted_ne_nil (pics : List (ImgData × ImgRequest)) (h : pics ≠ []) :
    gluedSorted pics ≠ [] := by
  intro h0
  apply h
  have hlen := (List.perm_insertionSort
    (fun a b : ImgData × ImgRequest => a.2.fov ≤ b.2.fov) pics).length_eq
  rw [gluedSorted] at h0
  rw [h0] at hlen
  exact List.eq_nil_of_length_eq_zero hlen.symm

lemma foldr_max_le (l : List Nat) : ∀ x ∈ l, x ≤ l.foldr Nat.max 0 := by
  induction l with
  | nil => simp
  | cons a t ih =>
    intro x hx
    rcases List.mem_cons.mp hx with rfl | hx
    · exact Nat.le_max_left _ _
    · exact le_trans (ih x hx) (Nat.le_max_right _ _)

lemma foldr_max_mem (l : List Nat) (h : l ≠ []) : ∃ x ∈ l, x = l.foldr Nat.max 0 := by
  induction l with
  | nil => exact absurd rfl h
  | cons a t ih =>
    cases t with
    | nil => exact ⟨a, by simp⟩
    | cons b t' =>
      obtain ⟨x, hx, hxe⟩ := ih (by simp)
      by_cases hle : (b :: t').foldr Nat.max 0 ≤ a
      · refine ⟨a, List.mem_cons_self a _, ?_⟩
        exact (Nat.max_eq_left hle).symm
      · refine ⟨x, List.mem_cons_of_mem a hx, ?_⟩
        rw [hxe]
        exact (Nat.max_eq_right (le_of_not_le hle)).symm

lemma insertKV_keys (l : List (String × α)) (k : String) (v : α) :
    (insertKV l k v).map Prod.fst =
      if k ∈ l.map Prod.fst then l.map Prod.fst else l.map Prod.fst ++ [k] := by
  induction l with
  | nil => simp [insertKV]
  | cons kv rest ih =>
    obtain ⟨k', v'⟩ := kv
    by_cases hk : k' = k
    · subst hk
      simp [insertKV]
    · have hk' : ¬k = k' := fun h => hk h.symm
      simp only [insertKV, if_neg hk, List.map_cons, List.mem_cons, hk', false_or, ih]
      split_ifs with hmem
      · rfl
      · rfl

lemma insertKV_nodup (l : List (String × α)) (k : String) (v : α)
    (h : (l.map Prod.fst).Nodup) : ((insertKV l k v).map Prod.fst).Nodup := by
  rw [insertKV_keys]
  split_ifs with hmem
  · exact h
  · simp [List.nodup_append, h, hmem]

lemma as_list_isSome (resp : α → MetaResp α) :
    ∀ (pts : List α) (ids : List (String × α)), (Panos.as_list resp pts ids).isSome = true
  | [], _ => rfl
  | p :: rest, ids => by
    rw [Panos.as_list]
    cases PanoIdOf.as_str (resp p) with
    | some s => exact as_list_isSome resp rest (insertKV ids s p)
    | none => exact as_list_isSome resp rest ids

lemma as_list_nodup_sorted (resp : α → MetaResp α) :
    ∀ (pts : List α) (ids : List (String × α)), (ids.map Prod.fst).Nodup →
      ∀ l, Panos.as_list resp pts ids = some l →
        (l.map Prod.fst).Nodup ∧ List.Sorted (fun a b : String × α => a.1 ≤ b.1) l
  | [], ids, hnd, l, hl => by
    rw [Panos.as_list] at hl
    obtain rfl : sortByKey ids = l := Option.some.inj hl
    refine ⟨?_, List.sorted_insertionSort _ ids⟩
    have hperm := List.perm_insertionSort (fun a b : String × α => a.1 ≤ b.1) ids
    exact ((hperm.map Prod.fst).nodup_iff).mpr hnd
  | p :: rest, ids, hnd, l, hl => by
    rw [Panos.as_list] at hl
    cases hstr : PanoIdOf.as_str (resp p) with
    | some s =>
      rw [hstr] at hl
      exact as_list_nodup_sorted resp rest (insertKV ids s p)
        (insertKV_nodup ids s p hnd) l hl
    | none =>
      rw [hstr] at hl
      exact as_list_nodup_sorted resp rest ids hnd l hl

/-! ## Concrete inputs used by evaluation theorems and witnesses -/

/-- A metadata lookup in which every queried point resolves with status OK to
the same identifier "A", and whose canonical capture location is the query
point displaced by 100. -/
def lookupSameId : Nat → MetaResp Nat :=
  fun p => { status := "OK", panoId := "A", loc := p + 100 }

/-- A metadata lookup resolving every point to identifier "A" with the query
point itself as the reported location. -/
def lookupConstA : Nat → MetaResp Nat :=
  fun p => { status := "OK", panoId := "A", loc := p }

/-- A request with fov 90 at the given heading, for concrete save inputs. -/
def rq90 (heading : Nat) : ImgRequest :=
  { url := "u", fov := 90, heading := heading }

/-- Four equally sized acquired images at headings 0, 90, 180, 270. -/
def pics4 : List (ImgData × ImgRequest) :=
  [({ w := 600, h := 400 }, rq90 0), ({ w := 600, h := 400 }, rq90 90),
   ({ w := 600, h := 400 }, rq90 180), ({ w := 600, h := 400 }, rq90 270)]

/-! ## Claim theorems -/

/-- Claim C1, evaluated on the code at the input that refutes it as stated:
points 1 and 2 both resolve (status OK) to identifier "A", so one record
survives and it carries 2 — the query coordinate of the last-visited point, which
is what `PanoIdOf.location()` returns — while the canonical capture location
the lookup returned for that point (`PanoIdOf.pano_location()`) is 102.
Last-write-wins holds, but the stored coordinate is the query point, not the
canonical capture location the claim (and the resolver contract of the spec)
describes. -/
theorem as_list_stores_query_not_canonical :
    Panos.asList lookupSameId [1, 2] = some [("A", 2)] ∧
    PanoIdOf.as_str (lookupSameId 1) = PanoIdOf.as_str (lookupSameId 2) ∧
    PanoIdOf.pano_location (lookupSameId 2) = some 102 ∧
    (2 : Nat) ≠ 102 := by decide

/-- Claim C2, evaluated on the code at the failing input fov = 7: the
assert of the source compares `360 % 90`, a constant, with 0, so building image
requests for fov = 7 does not fail; it returns a list of 52 requests with
headings 0, 7, ..., 357. The claim says this is a fatal configuration error
that aborts before any work. -/
theorem image_requests_fov7_returns_52 :
    ∃ rqs, Pano.image_requests "pano1" "key" 7 600 400 = some rqs ∧
      rqs.length = 52 ∧
      rqs.map ImgRequest.heading = (List.range 52).map (fun i => i * 7) :=
  ⟨_, rfl, by decide, by decide⟩

/-- Claim C3, evaluated on the code at the failing input: a panorama whose
every image request fails. Under the Glued strategy (seam duplication on,
the default) `Catalogue.download` raises — `PanoFolderGlued.save` evaluates
`pics[-1]` on an empty list — instead of completing, so the run aborts
rather than continuing; under the Simple strategy it completes with no
files, no directory and a false success flag, as the claim describes. -/
theorem download_zero_images_glued_raises :
    Catalogue.download ["out"] (Strat.glued true) (fun _ => none) "key" 90 "A" = none ∧
    Catalogue.download ["out"] Strat.simple (fun _ => none) "key" 90 "A" =
      some (false, [], []) :=
  ⟨rfl, rfl⟩

/-- Claim C4, counterexample: with the planar destination model and side 30,
the second emitted coordinate (outer index 0, inner index 30) is the corner
displaced south by 30 metres, whereas the rule of the claim (east by the inner
index, south by the outer index — `PointsInSquare.iterSpec`) puts it east by
30 metres. The two sequences differ, so the sampler does not emit
east-by-`j`-then-south-by-`i`. -/
theorem iter_counterexample_swapped_axes :
    (PointsInSquare.iter destPlanar (0, 0) 30)[1]? = some (0, -30) ∧
    (PointsInSquare.iterSpec destPlanar (0, 0) 30)[1]? = some (30, 0) ∧
    ((0, -30) : Int × Int) ≠ (30, 0) := by decide

/-- Claim C4 as amended: for every destination primitive, corner and side
k·30, the sampler emits, for outer index `i` and inner index `j`, the
coordinate obtained by displacing the corner east by `i`·30 metres and then
south by `j`·30 metres, via two chained destination-point calls in
east-then-south order — i.e. the formula of the claim holds with the roles of the
row and column indices swapped. -/
theorem iter_east_by_outer_south_by_inner (dest : α → Nat → Nat → α) (start : α) (k : Nat) :
    PointsInSquare.iter dest start (k * 30) =
      (List.range (k + 1)).flatMap (fun i =>
        (List.range (k + 1)).map (fun j => dest (dest start 90 (i * 30)) 180 (j * 30))) := by
  simp only [PointsInSquare.iter, pyRange_stride30, List.flatMap_map, List.map_map,
    Function.comp_def]

/-- Claim C5: when the index file already exists, `Catalogue.add` raises the
ValueError before doing any work: no directory is created, no file is
written, no index row is produced. -/
theorem add_existing_index_aborts_without_effects (dir : FsPath) (strat : Strat)
    (fetch : ImgRequest → Option ImgData) (apiKey : String) (fov : Nat)
    (resp : α → MetaResp α) (pts : List α) :
    Catalogue.add dir strat fetch apiKey fov true resp pts =
      (some ("index.csv already exists in " ++ String.intercalate "/" dir),
       { dirsCreated := [], filesWritten := [], indexRows := [] }) :=
  rfl

/-- Claim C6: whatever the lookup behaviour and the order of the sampled
points, the deduplicator output has pairwise distinct identifiers and is
sorted ascending by identifier (lexicographic `String` order). -/
theorem as_list_unique_ids_sorted (resp : α → MetaResp α) (pts : List α)
    (l : List (String × α)) (h : Panos.asList resp pts = some l) :
    (l.map Prod.fst).Nodup ∧ List.Sorted (fun a b : String × α => a.1 ≤ b.1) l :=
  as_list_nodup_sorted resp pts [] (by simp) l h

/-- Claim C6, witness: two points both resolving to identifier "A" leave a
single record, carrying the coordinate of the last point. -/
theorem as_list_unique_ids_sorted_witness :
    Panos.asList lookupConstA [5, 9] = some [("A", 9)] ∧
    (([("A", (9 : Nat))].map Prod.fst).Nodup ∧
      List.Sorted (fun a b : String × Nat => a.1 ≤ b.1) [("A", 9)]) :=
  ⟨by decide, as_list_unique_ids_sorted lookupConstA [5, 9] [("A", 9)] (by decide)⟩

/-- Claim C7: for every destination primitive and corner, a side of k·30
metres makes the sampler yield exactly (k+1)² coordinates. -/
theorem iter_count_is_k_plus_one_squared (dest : α → Nat → Nat → α) (start : α) (k : Nat) :
    (PointsInSquare.iter dest start (k * 30)).length = (k + 1) ^ 2 := by
  rw [iter_length, pow_two]

/-- Claim C8: on a non-empty image list, Glued persistence with seam
duplication prepends the last image of the sorted sequence, writes exactly
one composite file, and the composite width is the sum of the widths of
all n+1 included images while its height is the maximum of their heights. -/
theorem glued_save_dup_composite (dir : FsPath) (panoId : String)
    (pics : List (ImgData × ImgRequest)) (hne : pics ≠ []) :
    ∃ out lastPic,
      (gluedSorted pics).getLast? = some lastPic ∧
      PanoFolderGlued.save dir panoId true pics = some out ∧
      out.paths.length = 1 ∧
      (lastPic :: gluedSorted pics).length = pics.length + 1 ∧
      out.composite.w = ((lastPic :: gluedSorted pics).map (fun pr => pr.1.w)).sum ∧
      (∀ pr ∈ lastPic :: gluedSorted pics, pr.1.h ≤ out.composite.h) ∧
      (∃ pr ∈ lastPic :: gluedSorted pics, pr.1.h = out.composite.h) := by
  have hsne := sorted_ne_nil pics hne
  obtain ⟨lastPic, hlast⟩ := Option.isSome_iff_exists.mp (List.getLast?_isSome.mpr hsne)
  have hseam : seamsHandled true (gluedSorted pics) = some (lastPic :: gluedSorted pics) := by
    simp [seamsHandled, hlast]
  have hsave : PanoFolderGlued.save dir panoId true pics = some
      { composite := { w := ((lastPic :: gluedSorted pics).map (fun pr => pr.1.w)).sum
                       h := ((lastPic :: gluedSorted pics).map (fun pr => pr.1.h)).foldr Nat.max 0 }
        paths := [dir ++ [panoId, gluedName (lastPic :: gluedSorted pics)]]
        dirs := [dir ++ [panoId]] } := by
    rw [PanoFolderGlued.save.eq_def, hseam]
  refine ⟨_, lastPic, hlast, hsave, rfl, ?_, rfl, ?_, ?_⟩
  · have hlen := (List.perm_insertionSort
      (fun a b : ImgData × ImgRequest => a.2.fov ≤ b.2.fov) pics).length_eq
    simp only [List.length_cons, gluedSorted, hlen]
  · intro pr hpr
    exact foldr_max_le _ _ (List.mem_map_of_mem (fun pr => pr.1.h) hpr)
  · obtain ⟨x, hxmem, hxeq⟩ :=
      foldr_max_mem ((lastPic :: gluedSorted pics).map (fun pr => pr.1.h)) (by simp)
    obtain ⟨pr, hpr, hfx⟩ := List.mem_map.mp hxmem
    exact ⟨pr, hpr, by rw [hfx, hxeq]⟩

/-- Claim C8, witness: four images of size 600×400 with fov 90. -/
theorem glued_save_dup_composite_witness :
    pics4 ≠ [] ∧
    (∃ out lastPic,
      (gluedSorted pics4).getLast? = some lastPic ∧
      PanoFolderGlued.save ["out"] "A" true pics4 = some out ∧
      out.paths.length = 1 ∧
      (lastPic :: gluedSorted pics4).length = pics4.length + 1 ∧
      out.composite.w = ((lastPic :: gluedSorted pics4).map (fun pr => pr.1.w)).sum ∧
      (∀ pr ∈ lastPic :: gluedSorted pics4, pr.1.h ≤ out.composite.h) ∧
      (∃ pr ∈ lastPic :: gluedSorted pics4, pr.1.h = out.composite.h)) :=
  ⟨by decide, glued_save_dup_composite ["out"] "A" pics4 (by decide)⟩

/-- Claim C9: for every fov that evenly divides 360 (and is positive, since
the Python builtin `range` rejects a zero step), the request builder returns exactly
360/fov requests whose headings are 0, fov, 2·fov, ..., 360−fov, in strictly
ascending order. -/
theorem image_requests_divisor (panoId apiKey : String) (width height fov : Nat)
    (hpos : 0 < fov) (hdvd : fov ∣ 360) :
    ∃ rqs, Pano.image_requests panoId apiKey fov width height = some rqs ∧
      rqs.length = 360 / fov ∧
      rqs.map ImgRequest.heading = (List.range (360 / fov)).map (fun i => i * fov) ∧
      (rqs.map ImgRequest.heading).Pairwise (· < ·) := by
  have h0 : ¬fov = 0 := Nat.pos_iff_ne_zero.mp hpos
  refine ⟨(pyRange 360 fov).map (fun heading =>
    { url := imgUrl width height panoId heading fov apiKey
      fov := fov
      heading := heading }), ?_, ?_, ?_, ?_⟩
  · rw [Pano.image_requests]
    simp [h0]
  · rw [pyRange_dvd fov hpos hdvd]
    simp
  · rw [pyRange_dvd fov hpos hdvd]
    simp [List.map_map, Function.comp_def]
  · rw [pyRange_dvd fov hpos hdvd]
    simp only [List.map_map, Function.comp_def]
    rw [List.pairwise_map]
    exact (List.pairwise_lt_range _).imp (fun h => (Nat.mul_lt_mul_right hpos).mpr h)

/-- Claim C9, witness: fov = 90 yields the four requests with headings
0, 90, 180, 270 in that order. -/
theorem image_requests_divisor_witness :
    0 < 90 ∧ (90 ∣ 360) ∧
    (∃ rqs, Pano.image_requests "pano1" "key" 90 600 400 = some rqs ∧
      rqs.length = 360 / 90 ∧
      rqs.map ImgRequest.heading = (List.range (360 / 90)).map (fun i => i * 90) ∧
      (rqs.map ImgRequest.heading).Pairwise (· < ·)) :=
  ⟨by decide, by decide,
    image_requests_divisor "pano1" "key" 600 400 90 (by decide) (by decide)⟩

/-- Claim C10: whatever the lookup outcome, `PanoIdOf.location()` returns
the constructor-supplied query coordinate — it is always `some` — so the
`assert location is not None` in `Panos.as_list` can never fail: the
deduplicator always returns a result. -/
theorem location_is_query_assert_never_fails :
    (∀ (_d : MetaResp α) (c : α), PanoIdOf.location c = some c) ∧
    (∀ (resp : α → MetaResp α) (pts : List α), (Panos.asList resp pts).isSome = true) :=
  ⟨fun _ _ => rfl, fun resp pts => as_list_isSome resp pts []⟩

end Crawler
